import Mathlib

/-!
Verification of the Product Viability Evaluation Engine
(Manna-Alive import backend).

Shallow embedding of the pure computational core of
`app/services/evaluation.py`, `app/services/scoring.py`,
`app/services/triage.py` and the simulation endpoint in
`app/api/products.py`.

Conventions of the embedding:
* Python floats / `Decimal` columns are idealised as `ℚ`.
* `round(x, 2)` / `round(x, 1)` / `round(x)` become `round2` / `round1` /
  Mathlib's `round` on `ℚ` (rounding to nearest; nothing below depends on
  the tie-breaking direction).
* Operations that can raise in Python return `Option`/`Except`: the only
  unguarded division in `_scenario_calc` is by `float(quantity)`, so the
  embedded calculator returns `none` exactly when `quantity = 0`
  (modelling `ZeroDivisionError`); service entry points that can raise
  return `Except String`.
* Database rows become plain structures; SQLAlchemy queries become list
  lookups over a `DB` snapshot structure.
-/

namespace Manna

/-- Python `round(x, 2)` idealised over `ℚ`: round to 2 decimal places. -/
def round2 (q : ℚ) : ℚ := ((round (q * 100) : ℤ) : ℚ) / 100

/-- Python `round(x, 1)` idealised over `ℚ`: round to 1 decimal place. -/
def round1 (q : ℚ) : ℚ := ((round (q * 10) : ℤ) : ℚ) / 10

/-- Python `int(x)` on a float: truncation toward zero. -/
def pytrunc (q : ℚ) : ℤ := if 0 ≤ q then ⌊q⌋ else -⌊-q⌋

/-- Python `v or default` for an optional integer: `None` and `0` are
falsy and select the default. -/
def pyOrZ (v : Option ℤ) (d : ℤ) : ℤ :=
  match v with
  | some x => if x = 0 then d else x
  | none => d

/-- Python `s or default` for an optional string: `None` and the empty
string are falsy and select the default. -/
def pyOrStr (o : Option String) (d : String) : String :=
  match o with
  | some s => if s = "" then d else s
  | none => d

/-- `EvalConfig` from `app/services/evaluation.py` (frozen dataclass with
these defaults). -/
structure EvalConfig where
  min_margin_pct_conservative : ℚ := 35
  max_customs_value_usd : ℚ := 3000
  ml_fee_pct : ℚ := 16/100
  ads_pct : ℚ := 5/100
  local_cost_brl : ℚ := 3
deriving Repr, DecidableEq

/-- Input bundle of `_scenario_calc` (its keyword arguments). -/
structure ScenarioInput where
  kind : String
  name : String
  quantity : ℤ
  exchange_rate : ℚ
  target_sale_price_brl : ℚ
  fob_unit_usd : ℚ
  freight_total_usd : ℚ
  insurance_total_usd : ℚ
  sales_per_day : Option ℚ := none
deriving Repr, DecidableEq

/-- `ScenarioResult` as returned by `_scenario_calc`
(`app/schemas/evaluation.py`). -/
structure ScenarioResult where
  kind : String
  name : String
  quantity : ℤ
  exchange_rate : ℚ
  fob_total_usd : ℚ
  freight_total_usd : ℚ
  insurance_total_usd : ℚ
  customs_value_usd : ℚ
  estimated_total_cost_usd : ℚ
  estimated_total_cost_brl : ℚ
  unit_cost_brl : ℚ
  target_sale_price_brl : ℚ
  net_sale_price_brl : ℚ
  profit_unit_brl : ℚ
  profit_total_brl : ℚ
  roi_unit_pct : ℚ
  roi_total_pct : ℚ
  payback_days : Option ℚ
  estimated_margin_pct : ℚ
  approved : Bool
  reason : Option String
deriving Repr, DecidableEq

/-- `fob_total_usd = fob_unit_usd * float(quantity)`. -/
def scnFobTotal (i : ScenarioInput) : ℚ := i.fob_unit_usd * (i.quantity : ℚ)

/-- `customs_value_usd = fob_total_usd + freight_total_usd + insurance_total_usd`. -/
def scnCustomsValue (i : ScenarioInput) : ℚ :=
  scnFobTotal i + i.freight_total_usd + i.insurance_total_usd

/-- `estimated_total_cost_usd = customs_value_usd * 2.0`. -/
def scnEstTotalUsd (i : ScenarioInput) : ℚ := scnCustomsValue i * 2

/-- `estimated_total_cost_brl = estimated_total_cost_usd * exchange_rate`. -/
def scnEstTotalBrl (i : ScenarioInput) : ℚ := scnEstTotalUsd i * i.exchange_rate

/-- `unit_cost_brl = estimated_total_cost_brl / float(quantity)`; only
meaningful when `quantity ≠ 0` (Python raises `ZeroDivisionError` there). -/
def scnUnitCost (i : ScenarioInput) : ℚ := scnEstTotalBrl i / (i.quantity : ℚ)

/-- `net_sale_price_brl = target_sale_price_brl * (1 - total_fee_pct)` with
`total_fee_pct = ml_fee_pct + ads_pct`. -/
def scnNetSalePrice (config : EvalConfig) (i : ScenarioInput) : ℚ :=
  i.target_sale_price_brl * (1 - (config.ml_fee_pct + config.ads_pct))

/-- `profit_unit_brl = net_sale_price_brl - unit_cost_brl - local_cost_brl`. -/
def scnProfitUnit (config : EvalConfig) (i : ScenarioInput) : ℚ :=
  scnNetSalePrice config i - scnUnitCost i - config.local_cost_brl

/-- `profit_total_brl = profit_unit_brl * quantity`. -/
def scnProfitTotal (config : EvalConfig) (i : ScenarioInput) : ℚ :=
  scnProfitUnit config i * (i.quantity : ℚ)

/-- `capital_total_brl = unit_cost_brl * quantity`. -/
def scnCapitalTotal (i : ScenarioInput) : ℚ := scnUnitCost i * (i.quantity : ℚ)

/-- `roi_unit_pct = profit/unit_cost*100 if unit_cost_brl > 0 else -100.0`. -/
def scnRoiUnit (config : EvalConfig) (i : ScenarioInput) : ℚ :=
  if 0 < scnUnitCost i then scnProfitUnit config i / scnUnitCost i * 100 else -100

/-- `roi_total_pct = profit_total/capital*100 if capital_total_brl > 0 else -100.0`. -/
def scnRoiTotal (config : EvalConfig) (i : ScenarioInput) : ℚ :=
  if 0 < scnCapitalTotal i then scnProfitTotal config i / scnCapitalTotal i * 100 else -100

/-- The `payback_days` computation: set only when `sales_per_day` is truthy
and positive and `profit_unit_brl > 0`. -/
def scnPayback (config : EvalConfig) (i : ScenarioInput) : Option ℚ :=
  match i.sales_per_day with
  | some spd =>
      if 0 < spd ∧ 0 < scnProfitUnit config i then
        some (scnCapitalTotal i / (spd * scnProfitUnit config i))
      else none
  | none => none

/-- Classical margin: `-100.0` when `target_sale_price_brl ≤ 0`, else
`(target - unit_cost) / target * 100`. -/
def scnMargin (i : ScenarioInput) : ℚ :=
  if i.target_sale_price_brl ≤ 0 then -100
  else (i.target_sale_price_brl - scnUnitCost i) / i.target_sale_price_brl * 100

/-- Rejection reason `f"Valor aduaneiro acima de {max:.0f} USD."`. -/
def customsCapReason (config : EvalConfig) : String :=
  "Valor aduaneiro acima de " ++ toString (round config.max_customs_value_usd) ++ " USD."

/-- Rejection reason `f"Margem abaixo de {min:.0f}% no conservador."`. -/
def conservativeMarginReason (config : EvalConfig) : String :=
  "Margem abaixo de " ++ toString (round config.min_margin_pct_conservative) ++ "% no conservador."

/-- The `approved` / `reason` block of `_scenario_calc`: customs cap first,
then (for the conservative kind only) the minimum-margin check. -/
def scnApproval (config : EvalConfig) (i : ScenarioInput) : Bool × Option String :=
  if scnCustomsValue i > config.max_customs_value_usd then
    (false, some (customsCapReason config))
  else if i.kind = "conservative" ∧ scnMargin i < config.min_margin_pct_conservative then
    (false, some (conservativeMarginReason config))
  else (true, none)

/-- The `ScenarioResult` record built at the end of `_scenario_calc`
(monetary fields rounded to 2 decimals, payback to 1). -/
def scenarioResultFor (config : EvalConfig) (i : ScenarioInput) : ScenarioResult :=
  {
    kind := i.kind
    name := i.name
    quantity := i.quantity
    exchange_rate := i.exchange_rate
    fob_total_usd := round2 (scnFobTotal i)
    freight_total_usd := round2 i.freight_total_usd
    insurance_total_usd := round2 i.insurance_total_usd
    customs_value_usd := round2 (scnCustomsValue i)
    estimated_total_cost_usd := round2 (scnEstTotalUsd i)
    estimated_total_cost_brl := round2 (scnEstTotalBrl i)
    unit_cost_brl := round2 (scnUnitCost i)
    target_sale_price_brl := round2 i.target_sale_price_brl
    net_sale_price_brl := round2 (scnNetSalePrice config i)
    profit_unit_brl := round2 (scnProfitUnit config i)
    profit_total_brl := round2 (scnProfitTotal config i)
    roi_unit_pct := round2 (scnRoiUnit config i)
    roi_total_pct := round2 (scnRoiTotal config i)
    payback_days :=
      match scnPayback config i with
      | some p => if p ≠ 0 then some (round1 p) else none
      | none => none
    estimated_margin_pct := round2 (scnMargin i)
    approved := (scnApproval config i).1
    reason := (scnApproval config i).2 }

/-- `_scenario_calc` from `app/services/evaluation.py`.  Returns `none`
exactly when `quantity = 0`, where the Python source raises
`ZeroDivisionError` at `estimated_total_cost_brl / float(quantity)`. -/
def scenario_calc (config : EvalConfig) (i : ScenarioInput) : Option ScenarioResult :=
  if i.quantity = 0 then none
  else some (scenarioResultFor config i)

/-! ## Database rows (snapshot of the persistence collaborator) -/

/-- Row of `ncm` (`app/models/ncm.py`): regulatory flags read by the
blocker detector. -/
structure NcmRow where
  id : ℤ
  antidumping : Bool := false
  requires_li : Bool := false
  anvisa : Bool := false
  anatel : Bool := false
  inmetro : Bool := false
deriving Repr, DecidableEq, Inhabited

/-- Row of `products` (`app/models/product.py`), restricted to the columns
the evaluation engine reads. -/
structure ProductRow where
  id : ℤ
  name : String := ""
  category : Option String := none
  supplier_id : Option ℤ := none
  ncm_id : Option ℤ := none
  weight_kg : Option ℚ := none
  length_cm : Option ℚ := none
  width_cm : Option ℚ := none
  height_cm : Option ℚ := none
  fragile : Bool := false
  fob_price_usd : Option ℚ := none
  freight_usd : Option ℚ := none
  insurance_usd : Option ℚ := none
  is_famous_brand : Bool := false
  has_brand_authorization : Bool := false
  created_at : ℤ := 0
deriving Repr, DecidableEq, Inhabited

/-- Row of `product_market_data` (`app/models/product_market_data.py`). -/
structure MarketRow where
  product_id : ℤ
  price_average_brl : Option ℚ := none
  sales_per_day : Option ℤ := none
  sales_per_month : Option ℤ := none
  visits : Option ℤ := none
  ranking_position : Option ℤ := none
  full_ratio : Option ℚ := none
  competitor_count : Option ℤ := none
deriving Repr, DecidableEq, Inhabited

/-- Row of `import_simulations` (`app/models/import_simulation.py`),
restricted to the columns the engine reads back. -/
structure SimRow where
  product_id : ℤ
  quantity : ℤ
  exchange_rate : ℚ
  target_sale_price_brl : ℚ
  estimated_margin_pct : ℚ
  approved : Bool := false
  created_at : ℤ := 0
deriving Repr, DecidableEq, Inhabited

/-- Row of `product_decisions`, restricted to what the evaluation header
echoes back. -/
structure DecisionRow where
  product_id : ℤ
  decision : String := ""
  created_at : ℤ := 0
deriving Repr, DecidableEq, Inhabited

/-- A read-only snapshot of the database tables the engine queries. -/
structure DB where
  products : List ProductRow := []
  markets : List MarketRow := []
  simulations : List SimRow := []
  ncms : List NcmRow := []
  decisions : List DecisionRow := []
deriving Repr, DecidableEq, Inhabited

/-- `_latest_simulation` / `_get_latest_simulation`: the simulation row of
the product with maximal `created_at` (first such row on ties). -/
def latestSimulation (db : DB) (pid : ℤ) : Option SimRow :=
  (db.simulations.filter (fun s => s.product_id = pid)).foldl
    (fun acc s =>
      match acc with
      | none => some s
      | some t => if t.created_at < s.created_at then some s else some t)
    none

/-- `_latest_decision`: latest decision row for the product. -/
def latestDecision (db : DB) (pid : ℤ) : Option DecisionRow :=
  (db.decisions.filter (fun d => d.product_id = pid)).foldl
    (fun acc s =>
      match acc with
      | none => some s
      | some t => if t.created_at < s.created_at then some s else some t)
    none

/-- The query `db.query(ProductMarketData).filter(product_id == pid).first()`
(also the 1:1 relationship `product.market_data`). -/
def marketFor (db : DB) (pid : ℤ) : Option MarketRow :=
  db.markets.find? (fun m => m.product_id = pid)

/-- The query `db.query(Product).filter(Product.id == pid).first()`. -/
def productFor (db : DB) (pid : ℤ) : Option ProductRow :=
  db.products.find? (fun p => p.id = pid)

/-! ## Scoring (`app/services/scoring.py`) -/

/-- `_normalize`: clamp a raw metric into `[0,1]` over a linear range;
`None` maps to 0. -/
def normalize (value : Option ℚ) (min_val max_val : ℚ) : ℚ :=
  match value with
  | none => 0
  | some v =>
      if v ≤ min_val then 0
      else if v ≥ max_val then 1
      else (v - min_val) / (max_val - min_val)

/-- `_score_to_label`: classification boundaries 80 / 60 / 40. -/
def scoreToLabel (total_score : ℚ) : String :=
  if total_score ≥ 80 then "campeao"
  else if total_score ≥ 60 then "bom"
  else if total_score ≥ 40 then "arriscado"
  else "descartar"

/-- Demand sub-score: `0.6*norm(sales/day,0,150) + 0.3*norm(sales/month,0,4000)
+ 0.1*norm(visits,0,10000)`, each scaled to 0-100; missing values enter as 0
(`x or 0`). -/
def demandScore (market : Option MarketRow) : ℚ :=
  let sales_per_day := market.bind (fun m => m.sales_per_day)
  let sales_per_month := market.bind (fun m => m.sales_per_month)
  let visits := market.bind (fun m => m.visits)
  let sales_day_score := normalize (some ((sales_per_day.getD 0 : ℤ) : ℚ)) 0 150 * 100
  let sales_month_score := normalize (some ((sales_per_month.getD 0 : ℤ) : ℚ)) 0 4000 * 100
  let visits_score := normalize (some ((visits.getD 0 : ℤ) : ℚ)) 0 10000 * 100
  (6/10) * sales_day_score + (3/10) * sales_month_score + (1/10) * visits_score

/-- Competition sub-score: penalties from FULL ratio, competitor count and
leader ranking (`ranking_position or 50000`), floored at 0. -/
def competitionScore (market : Option MarketRow) : ℚ :=
  let full_ratio := market.bind (fun m => m.full_ratio)
  let competitor_count := market.bind (fun m => m.competitor_count)
  let ranking_position := market.bind (fun m => m.ranking_position)
  let full_penalty := normalize (some (full_ratio.getD 0)) 0 80 * 100
  let competitors_penalty := normalize (some ((competitor_count.getD 0 : ℤ) : ℚ)) 0 30 * 100
  let ranking_penalty := normalize (some ((pyOrZ ranking_position 50000 : ℤ) : ℚ)) 1 50000 * 100
  max 0 (100 - ((4/10) * full_penalty + (4/10) * competitors_penalty + (2/10) * ranking_penalty))

/-- Margin sub-score: `normalize(latest margin or 0, 10, 60) * 100`. -/
def marginScore (simulation : Option SimRow) : ℚ :=
  normalize (some ((simulation.map (fun s => s.estimated_margin_pct)).getD 0)) 10 60 * 100

/-- Risk sub-score before the final clamp: start at 100, subtract 30 for
weight > 5kg (else 15 for weight > 2kg), 15 for fragility, 40 for a famous
brand without authorization. -/
def riskScorePre (product : ProductRow) : ℚ :=
  let weight_kg := (product.weight_kg).getD 0
  let s1 : ℚ := if weight_kg > 5 then 100 - 30 else if weight_kg > 2 then 100 - 15 else 100
  let s2 := if product.fragile then s1 - 15 else s1
  if product.is_famous_brand ∧ ¬ product.has_brand_authorization then s2 - 40 else s2

/-- Risk sub-score with the final `max(0.0, min(100.0, risk_score))` clamp. -/
def riskScore (product : ProductRow) : ℚ :=
  max 0 (min 100 (riskScorePre product))

/-- `total_score = 0.40*demand + 0.25*competition + 0.25*margin + 0.10*risk`
(the float value before the final integer rounding). -/
def totalScoreRaw (market : Option MarketRow) (simulation : Option SimRow)
    (product : ProductRow) : ℚ :=
  (40/100) * demandScore market + (25/100) * competitionScore market +
  (25/100) * marginScore simulation + (10/100) * riskScore product

/-- The raw total score of a product, from the rows scoring reads. -/
def scoreTotalRaw (db : DB) (pid : ℤ) (product : ProductRow) : ℚ :=
  totalScoreRaw (marketFor db pid) (latestSimulation db pid) product

/-- The result dict of `compute_product_score` (the keys consumed
downstream). -/
structure ScoreResult where
  demand_score : ℤ
  competition_score : ℤ
  margin_score : ℤ
  risk_score : ℤ
  total_score : ℤ
  classification : String
  sales_per_day : Option ℤ
  sales_per_month : Option ℤ
  visits : Option ℤ
  price_average_brl : Option ℚ
  estimated_margin_pct : Option ℚ
  has_latest_simulation : Bool
  product_id : ℤ
deriving Repr, DecidableEq, Inhabited

/-- `compute_product_score`: raises `ValueError` when the product does not
exist, otherwise returns the score dict.  Note that `classification` is
computed from the unrounded float total while `total_score` is
`int(round(total_score))`. -/
def compute_product_score (db : DB) (pid : ℤ) : Except String ScoreResult :=
  match productFor db pid with
  | none => .error "Produto não encontrado."
  | some product =>
      let market := marketFor db pid
      let simulation := latestSimulation db pid
      let total := totalScoreRaw market simulation product
      .ok {
        demand_score := round (demandScore market)
        competition_score := round (competitionScore market)
        margin_score := round (marginScore simulation)
        risk_score := round (riskScore product)
        total_score := round total
        classification := scoreToLabel total
        sales_per_day := market.bind (fun m => m.sales_per_day)
        sales_per_month := market.bind (fun m => m.sales_per_month)
        visits := market.bind (fun m => m.visits)
        price_average_brl := market.bind (fun m => m.price_average_brl)
        estimated_margin_pct := simulation.map (fun s => s.estimated_margin_pct)
        has_latest_simulation := simulation.isSome
        product_id := product.id }

/-- `compute_product_score_v2` forwards the result of
`compute_product_score`; the extra `reasons` bullets are presentation-only
strings and are not modelled. -/
def compute_product_score_v2 (db : DB) (pid : ℤ) : Except String ScoreResult :=
  compute_product_score db pid

/-! ## Full product evaluation (`compute_product_evaluation`) -/

/-- A hard blocker (`Blocker` schema). -/
structure Blocker where
  key : String
  title : String
  reason : String
deriving Repr, DecidableEq, Inhabited

/-- One checklist item of the completeness report. -/
structure CompletenessItem where
  key : String
  label : String
  is_complete : Bool
deriving Repr, DecidableEq, Inhabited

/-- The completeness report: percent, ordered items, missing labels. -/
structure Completeness where
  percent : ℤ
  items : List CompletenessItem
  missing : List String
deriving Repr, DecidableEq, Inhabited

/-- The evaluation header (the fields the engine computes; timestamps and
names are echoed through). -/
structure EvaluationHeader where
  product_id : ℤ
  product_name : String
  category : Option String
  has_market_data : Bool
  has_ncm : Bool
  has_supplier : Bool
  has_dimensions : Bool
  latest_decision : Option DecisionRow
  created_at : ℤ
deriving Repr, DecidableEq, Inhabited

/-- The evaluation response.  The four pillar assessments and the free-text
`notes` are presentation-only and not modelled; every field consumed by the
decision logic or by callers of the engine is present. -/
structure ProductEvaluationResponse where
  header : EvaluationHeader
  completeness : Completeness
  decision : String
  decision_reason : String
  score : Option ScoreResult
  scenarios : List ScenarioResult
  blockers : List Blocker
deriving Repr, DecidableEq, Inhabited

/-- `v is not None and float(v) > 0`. -/
def posOpt (v : Option ℚ) : Bool :=
  match v with
  | some x => decide (0 < x)
  | none => false

/-- `fob_unit = _safe_float(product.fob_price_usd) or 0.0` (the rows hold
exact numerics, so `_safe_float` never fails on them). -/
def evalFobUnit (product : ProductRow) : ℚ := (product.fob_price_usd).getD 0

/-- `freight_unit = _safe_float(product.freight_usd) or 0.0`. -/
def evalFreightUnit (product : ProductRow) : ℚ := (product.freight_usd).getD 0

/-- `insurance_unit = _safe_float(product.insurance_usd) or 0.0`. -/
def evalInsuranceUnit (product : ProductRow) : ℚ := (product.insurance_usd).getD 0

/-- `base_qty`: the latest simulation quantity, replaced by the default 200
when there is no simulation or the quantity is falsy or non-positive. -/
def evalBaseQty (last_sim : Option SimRow) : ℤ :=
  match last_sim with
  | some s => if 0 < s.quantity then s.quantity else 200
  | none => 200

/-- `base_exchange`: the latest simulation FX rate, defaulted to 5.2 when
missing, falsy or non-positive. -/
def evalBaseExchange (last_sim : Option SimRow) : ℚ :=
  let raw : ℚ :=
    match last_sim with
    | some s => s.exchange_rate
    | none => 52/10
  if 0 < raw then raw else 52/10

/-- `base_target_price`: the latest simulation target price, else the market
average price, clamped to 0 when missing, falsy or non-positive. -/
def evalBaseTargetPrice (market : Option MarketRow) (last_sim : Option SimRow) : ℚ :=
  let raw : Option ℚ :=
    match last_sim with
    | some s => some s.target_sale_price_brl
    | none =>
        match market with
        | some m => m.price_average_brl
        | none => some 0
  match raw with
  | some v => if 0 < v then v else 0
  | none => 0

/-- `base_freight_total = freight_unit * base_qty if freight_unit > 0 else 80.0`. -/
def evalBaseFreightTotal (product : ProductRow) (base_qty : ℤ) : ℚ :=
  if 0 < evalFreightUnit product then evalFreightUnit product * (base_qty : ℚ) else 80

/-- `base_ins_total = insurance_unit * base_qty if insurance_unit > 0 else 10.0`. -/
def evalBaseInsTotal (product : ProductRow) (base_qty : ℤ) : ℚ :=
  if 0 < evalInsuranceUnit product then evalInsuranceUnit product * (base_qty : ℚ) else 10

/-- `sales_per_day = _safe_float(market.sales_per_day) if market else None`. -/
def evalSalesPerDay (market : Option MarketRow) : Option ℚ :=
  market.bind (fun m => (m.sales_per_day).map (fun n => (n : ℚ)))

/-- The `base` scenario assumptions. -/
def evalBaseInput (product : ProductRow) (market : Option MarketRow)
    (last_sim : Option SimRow) : ScenarioInput :=
  let bq := evalBaseQty last_sim
  { kind := "base"
    name := "Base"
    quantity := bq
    exchange_rate := evalBaseExchange last_sim
    target_sale_price_brl := evalBaseTargetPrice market last_sim
    fob_unit_usd := evalFobUnit product
    freight_total_usd := evalBaseFreightTotal product bq
    insurance_total_usd := evalBaseInsTotal product bq
    sales_per_day := evalSalesPerDay market }

/-- The `conservative` scenario assumptions: 60% quantity floored at 50,
worse FX, lower price, worse FOB, freight and insurance. -/
def evalConsInput (product : ProductRow) (market : Option MarketRow)
    (last_sim : Option SimRow) : ScenarioInput :=
  let bq := evalBaseQty last_sim
  { kind := "conservative"
    name := "Conservador"
    quantity := max 50 (pytrunc ((bq : ℚ) * (6/10)))
    exchange_rate := evalBaseExchange last_sim * (105/100)
    target_sale_price_brl := evalBaseTargetPrice market last_sim * (95/100)
    fob_unit_usd := evalFobUnit product * (103/100)
    freight_total_usd := evalBaseFreightTotal product bq * (115/100)
    insurance_total_usd := evalBaseInsTotal product bq * (11/10)
    sales_per_day := evalSalesPerDay market }

/-- The `optimistic` scenario assumptions: 130% quantity (truncated),
better FX, higher price, better FOB floored at 0. -/
def evalOptInput (product : ProductRow) (market : Option MarketRow)
    (last_sim : Option SimRow) : ScenarioInput :=
  let bq := evalBaseQty last_sim
  { kind := "optimistic"
    name := "Otimista"
    quantity := pytrunc ((bq : ℚ) * (13/10))
    exchange_rate := evalBaseExchange last_sim * (97/100)
    target_sale_price_brl := evalBaseTargetPrice market last_sim * (103/100)
    fob_unit_usd := max 0 (evalFobUnit product * (98/100))
    freight_total_usd := evalBaseFreightTotal product bq * (95/100)
    insurance_total_usd := evalBaseInsTotal product bq * (95/100)
    sales_per_day := evalSalesPerDay market }

/-- The `conservative` scenario result actually fed into the decision. -/
def evalConsScenario (db : DB) (pid : ℤ) (product : ProductRow) : Option ScenarioResult :=
  scenario_calc {} (evalConsInput product (marketFor db pid) (latestSimulation db pid))

/-- The relationship `product.ncm` resolved in the snapshot. -/
def evalNcm (db : DB) (product : ProductRow) : Option NcmRow :=
  product.ncm_id.bind (fun nid => db.ncms.find? (fun n => n.id = nid))

/-- The hard-stop list: famous brand without authorization, then the
NCM antidumping flag (`if has_ncm and product.ncm is not None`). -/
def evalBlockers (db : DB) (product : ProductRow) : List Blocker :=
  (if product.is_famous_brand ∧ ¬ product.has_brand_authorization then
    [{ key := "brand_risk"
       title := "Risco de marca"
       reason := "Produto marcado como marca famosa sem autorização de revenda/importação." }]
  else []) ++
  (if product.ncm_id.isSome then
    match evalNcm db product with
    | some n =>
        if n.antidumping then
          [{ key := "antidumping"
             title := "Antidumping"
             reason := "NCM indica possível antidumping. Requer validação antes de importar." }]
        else []
    | none => []
  else [])

/-- `has_dimensions`: all four physical dimensions present and positive. -/
def evalHasDimensions (product : ProductRow) : Bool :=
  [product.weight_kg, product.length_cm, product.width_cm, product.height_cm].all posOpt

/-- The five completeness checklist items, in source order. -/
def evalCompletenessItems (product : ProductRow) (market : Option MarketRow) :
    List CompletenessItem :=
  [{ key := "market_data", label := "Dados de mercado preenchidos", is_complete := market.isSome },
   { key := "ncm", label := "NCM definido", is_complete := product.ncm_id.isSome },
   { key := "supplier", label := "Fornecedor definido", is_complete := product.supplier_id.isSome },
   { key := "dimensions", label := "Peso e dimensões preenchidos", is_complete := evalHasDimensions product },
   { key := "fob", label := "FOB preenchido", is_complete := product.fob_price_usd.isSome }]

/-- The completeness report: `percent = int(round(complete/total*100))`. -/
def evalCompleteness (product : ProductRow) (market : Option MarketRow) : Completeness :=
  let items := evalCompletenessItems product market
  let total := items.length
  let complete := (items.filter (fun i => i.is_complete)).length
  { percent := round (((complete : ℚ) / (total : ℚ)) * 100)
    items := items
    missing := (items.filter (fun i => ¬ i.is_complete)).map (fun i => i.label) }

/-- The decision ladder of `compute_product_evaluation` (lines 402-414):
blockers, then missing critical data, then the conservative verdict. -/
def evalDecision (blockers : List Blocker) (has_market_data : Bool)
    (base_target_price fob_unit : ℚ) (conservative : ScenarioResult) : String × String :=
  if blockers ≠ [] then
    ("reject", "Há impeditivos objetivos (risco/compliance) antes de seguir.")
  else if has_market_data = false ∨ base_target_price ≤ 0 ∨ fob_unit ≤ 0 then
    ("needs_data", "Faltam dados críticos para decidir com segurança.")
  else if conservative.approved then
    ("approve", "Aprova no cenário conservador e não há impeditivos.")
  else
    ("reject", pyOrStr conservative.reason "Reprovado no cenário conservador.")

/-- `compute_product_evaluation` (`app/services/evaluation.py`).  Errors:
`ValueError` when the product is missing; a `ZeroDivisionError` would
propagate out of `_scenario_calc` if a scenario quantity were 0, and a
`StopIteration` if the scenario list had no conservative entry (both are
proved unreachable below). -/
def compute_product_evaluation (db : DB) (pid : ℤ) : Except String ProductEvaluationResponse :=
  match productFor db pid with
  | none => .error "Product not found"
  | some product =>
    let config : EvalConfig := {}
    let market := marketFor db pid
    let last_sim := latestSimulation db pid
    match scenario_calc config (evalBaseInput product market last_sim) with
    | none => .error "ZeroDivisionError"
    | some base =>
      match scenario_calc config (evalConsInput product market last_sim) with
      | none => .error "ZeroDivisionError"
      | some cons =>
        match scenario_calc config (evalOptInput product market last_sim) with
        | none => .error "ZeroDivisionError"
        | some opt =>
          let scenarios := [base, cons, opt]
          match scenarios.find? (fun s => s.kind = "conservative") with
          | none => .error "StopIteration"
          | some conservative =>
            let blockers := evalBlockers db product
            let dr := evalDecision blockers market.isSome
              (evalBaseTargetPrice market last_sim) (evalFobUnit product) conservative
            .ok {
              header := {
                product_id := product.id
                product_name := product.name
                category := product.category
                has_market_data := market.isSome
                has_ncm := product.ncm_id.isSome
                has_supplier := product.supplier_id.isSome
                has_dimensions := evalHasDimensions product
                latest_decision := latestDecision db pid
                created_at := product.created_at }
              completeness := evalCompleteness product market
              decision := dr.1
              decision_reason := dr.2
              score := (compute_product_score_v2 db pid).toOption
              scenarios := scenarios
              blockers := blockers }

/-! ## Persisted simulations (`simulate_import_for_product`, `app/api/products.py`) -/

/-- `SimulationInput` (`app/schemas/simulation.py`): `exchange_rate`,
`freight_total_usd` and `insurance_total_usd` are optional. -/
structure SimulationInput where
  quantity : ℤ
  exchange_rate : Option ℚ := none
  target_sale_price_brl : ℚ
  freight_total_usd : Option ℚ := none
  insurance_total_usd : Option ℚ := none
deriving Repr, DecidableEq, Inhabited

/-- The `ImportSimulation` record the endpoint persists (identity and
timestamp columns are assigned by the database and not modelled). -/
structure NewSimulation where
  product_id : ℤ
  quantity : ℤ
  exchange_rate : ℚ
  fob_total_usd : ℚ
  freight_total_usd : ℚ
  insurance_total_usd : ℚ
  customs_value_usd : ℚ
  estimated_total_cost_usd : ℚ
  estimated_total_cost_brl : ℚ
  unit_cost_brl : ℚ
  target_sale_price_brl : ℚ
  estimated_margin_pct : ℚ
  approved : Bool
  reason : String
deriving Repr, DecidableEq, Inhabited

/-- `simulate_import_for_product`: the quick-rule simulation persisted for a
product.  Errors model, in source order: the 404 when the product is
missing, the 400 when it has no FOB, the `TypeError` of
`estimated_total_cost_usd * None`, the `ZeroDivisionError` of
`estimated_total_cost_brl / quantity`, and the `DivisionByZero` of the
margin formula when the target price is 0. -/
def simulate_import_for_product (db : DB) (pid : ℤ) (payload : SimulationInput) :
    Except String NewSimulation :=
  match productFor db pid with
  | none => .error "Produto não encontrado."
  | some product =>
    match product.fob_price_usd with
    | none => .error "Produto não possui FOB definido."
    | some fob =>
      match payload.exchange_rate with
      | none => .error "TypeError"
      | some exchange_rate =>
        if payload.quantity = 0 then .error "ZeroDivisionError"
        else if payload.target_sale_price_brl = 0 then .error "DivisionByZero"
        else
          let quantity := payload.quantity
          let target_price := payload.target_sale_price_brl
          let fob_total_usd := fob * (quantity : ℚ)
          let freight_total_usd :=
            match payload.freight_total_usd with
            | some f => f
            | none => (product.freight_usd.getD 0) * (quantity : ℚ)
          let insurance_total_usd :=
            match payload.insurance_total_usd with
            | some f => f
            | none => (product.insurance_usd.getD 0) * (quantity : ℚ)
          let customs_value_usd := fob_total_usd + freight_total_usd + insurance_total_usd
          let estimated_total_cost_usd := customs_value_usd * 2
          let estimated_total_cost_brl := estimated_total_cost_usd * exchange_rate
          let unit_cost_brl := estimated_total_cost_brl / (quantity : ℚ)
          let estimated_margin_pct := (target_price - unit_cost_brl) / target_price * 100
          let customs_fail := customs_value_usd > 3000
          let margin_fail := estimated_margin_pct < 35
          let reasons : List String :=
            (if customs_fail then
              ["Excede o limite de US$ 3.000 de valor aduaneiro por remessa."] else []) ++
            (if margin_fail then ["Margem abaixo de 35%."] else [])
          .ok {
            product_id := product.id
            quantity := quantity
            exchange_rate := exchange_rate
            fob_total_usd := fob_total_usd
            freight_total_usd := freight_total_usd
            insurance_total_usd := insurance_total_usd
            customs_value_usd := customs_value_usd
            estimated_total_cost_usd := estimated_total_cost_usd
            estimated_total_cost_brl := estimated_total_cost_brl
            unit_cost_brl := unit_cost_brl
            target_sale_price_brl := target_price
            estimated_margin_pct := estimated_margin_pct
            approved := ¬ (customs_fail ∨ margin_fail)
            reason :=
              if reasons ≠ [] then String.intercalate " " reasons
              else "Aprovado nos critérios definidos." }

/-! ## Triage (`app/services/triage.py`) -/

/-- `_Flags`: the four data-presence flags. -/
structure TriageFlags where
  has_fob : Bool
  has_freight : Bool
  has_market : Bool
  has_sim : Bool
deriving Repr, DecidableEq, Inhabited

/-- `_status_and_action`: `(status, next_action, priority_rank)`, first
match wins; lower rank is evaluated first. -/
def status_and_action (flags : TriageFlags) : String × String × ℤ :=
  if !flags.has_fob || !flags.has_freight then
    if !flags.has_fob then ("needs_costs", "Preencher FOB (custo base do fornecedor)", 30)
    else ("needs_costs", "Preencher frete (estimativa para simulação)", 20)
  else if !flags.has_market then
    ("needs_market", "Preencher dados de mercado (Avant Pro / ML)", 10)
  else if !flags.has_sim then
    ("needs_simulation", "Rodar simulação (cenários e margem)", 5)
  else ("ready", "Avaliar e decidir (aprovar / reprovar)", 0)

/-- `_build_alerts`: cumulative alert lines. -/
def build_alerts (product : ProductRow) (flags : TriageFlags) : List String :=
  (if !flags.has_fob then ["Sem FOB: custo base do fornecedor não informado."] else []) ++
  (if !flags.has_freight then ["Sem frete: simulação tende a ficar imprecisa."] else []) ++
  (if !flags.has_market then ["Sem dados de mercado: demanda/concorrência não avaliadas."] else []) ++
  (if !flags.has_sim then ["Sem simulação: margem ainda não validada."] else []) ++
  (if product.is_famous_brand ∧ ¬ product.has_brand_authorization then
    ["Risco alto: marca famosa sem autorização (PI / apreensão)."] else []) ++
  (if product.fragile then ["Atenção: produto frágil (risco logístico)."] else []) ++
  (let weight := (product.weight_kg).getD 0
   if weight > 5 then ["Atenção: produto pesado (>5kg) — ruim para simplificada."]
   else if weight > 2 then ["Atenção: peso moderado (>2kg) — impacta frete."]
   else []) ++
  (if product.ncm_id.isNone then ["Sem NCM definido: pode travar decisão/compliance."] else [])

/-- One triage entry (`ProductTriageOut`); `score` embeds the result dict
directly (`ScoreSummaryOut` copies its fields). -/
structure ProductTriageOut where
  product_id : ℤ
  product_name : String
  category : Option String
  created_at : ℤ
  fob_price_usd : Option ℚ
  freight_usd : Option ℚ
  insurance_usd : Option ℚ
  has_fob : Bool
  has_freight : Bool
  has_market_data : Bool
  has_latest_simulation : Bool
  status : String
  next_action : String
  priority_rank : ℤ
  last_simulation : Option SimRow
  score : Option ScoreResult
  alerts : List String
deriving Repr, DecidableEq, Inhabited

/-- The flags of one product in the batch: FOB/freight column presence,
membership in the prefetched market and latest-simulation maps. -/
def triageFlagsOf (db : DB) (product : ProductRow) : TriageFlags :=
  { has_fob := product.fob_price_usd.isSome
    has_freight := product.freight_usd.isSome
    has_market := db.markets.any (fun m => m.product_id = product.id)
    has_sim := (latestSimulation db product.id).isSome }

/-- The per-product body of the `build_products_triage` loop.  The
`try/except` around scoring becomes a match: any scoring failure degrades
`score` to `none`. -/
def triageEntry (db : DB) (include_score : Bool) (product : ProductRow) : ProductTriageOut :=
  let flags := triageFlagsOf db product
  let saa := status_and_action flags
  { product_id := product.id
    product_name := product.name
    category := product.category
    created_at := product.created_at
    fob_price_usd := product.fob_price_usd
    freight_usd := product.freight_usd
    insurance_usd := product.insurance_usd
    has_fob := flags.has_fob
    has_freight := flags.has_freight
    has_market_data := flags.has_market
    has_latest_simulation := flags.has_sim
    status := saa.1
    next_action := saa.2.1
    priority_rank := saa.2.2
    last_simulation := latestSimulation db product.id
    score :=
      if include_score then
        match compute_product_score_v2 db product.id with
        | .ok r => some r
        | .error _ => none
      else none
    alerts := build_alerts product flags }

/-- The score component of the sort key:
`x.score.total_score if x.score else -1`. -/
def triageScoreKey (x : ProductTriageOut) : ℤ :=
  match x.score with
  | some s => s.total_score
  | none => -1

/-- `_sort_key`: `(priority_rank, -score, -created_at_timestamp)`. -/
def triageSortKey (x : ProductTriageOut) : ℤ × ℤ × ℤ :=
  (x.priority_rank, -(triageScoreKey x), -x.created_at)

/-- Lexicographic order on integer triples (Python tuple comparison). -/
def lex3 (u v : ℤ × ℤ × ℤ) : Prop :=
  u.1 < v.1 ∨ (u.1 = v.1 ∧ (u.2.1 < v.2.1 ∨ (u.2.1 = v.2.1 ∧ u.2.2 ≤ v.2.2)))

/-- The total preorder `out.sort(key=_sort_key)` sorts by. -/
def triageLe (a b : ProductTriageOut) : Prop :=
  lex3 (triageSortKey a) (triageSortKey b)

instance : DecidableRel triageLe := by
  intro a b
  unfold triageLe lex3
  infer_instance

instance : IsTotal ProductTriageOut triageLe := by
  constructor
  intro a b
  unfold triageLe lex3
  omega

instance : IsTrans ProductTriageOut triageLe := by
  constructor
  intro a b c
  unfold triageLe lex3
  omega

/-- The recency preorder of the initial query
(`order_by(Product.created_at.desc())`). -/
def productRecencyGe (a b : ProductRow) : Prop := b.created_at ≤ a.created_at

instance : DecidableRel productRecencyGe := by
  intro a b
  unfold productRecencyGe
  infer_instance

instance : IsTotal ProductRow productRecencyGe := by
  constructor
  intro a b
  unfold productRecencyGe
  omega

instance : IsTrans ProductRow productRecencyGe := by
  constructor
  intro a b c
  unfold productRecencyGe
  omega

/-- The product list the batch iterates: newest first, limited.  (Stable
sorts are extensionally unique, so `insertionSort` models the collaborator
ordering and Python `list.sort` faithfully.) -/
def triageProducts (db : DB) (limit : ℕ) : List ProductRow :=
  (List.insertionSort productRecencyGe db.products).take limit

/-- `build_products_triage`: build one entry per product (isolating scoring
failures), then sort by `(priority_rank, -score, -created_at)`. -/
def build_products_triage (db : DB) (limit : ℕ) (include_score : Bool) :
    List ProductTriageOut :=
  List.insertionSort triageLe ((triageProducts db limit).map (triageEntry db include_score))

/-! ## Helper lemmas -/

lemma scenario_calc_eq (config : EvalConfig) (i : ScenarioInput) (h : i.quantity ≠ 0) :
    scenario_calc config i = some (scenarioResultFor config i) := by
  simp [scenario_calc, h]

lemma scenario_calc_some {config : EvalConfig} {i : ScenarioInput} {r : ScenarioResult}
    (h : scenario_calc config i = some r) :
    r = scenarioResultFor config i ∧ i.quantity ≠ 0 := by
  unfold scenario_calc at h
  split at h
  · exact absurd h (by simp)
  · exact ⟨(Option.some.inj h).symm, by assumption⟩

lemma abs_round2_sub (q : ℚ) : |round2 q - q| ≤ 1/200 := by
  have h := abs_sub_round (q * 100)
  rw [abs_sub_comm] at h
  rw [abs_le] at h ⊢
  constructor
  · have := h.1
    unfold round2
    linarith
  · have := h.2
    unfold round2
    linarith

lemma int_le_round {q : ℚ} {a : ℤ} (h : (a : ℚ) ≤ q) : a ≤ round q := by
  rw [round_eq]
  refine Int.le_floor.mpr ?_
  linarith

lemma round_le_int {q : ℚ} {b : ℤ} (h : q ≤ (b : ℚ)) : round q ≤ b := by
  rw [round_eq]
  have : ⌊q + 1/2⌋ < b + 1 := by
    refine Int.floor_lt.mpr ?_
    push_cast
    linarith
  omega

lemma exceptOkD {α : Type} [Inhabited α] {e : Except String α} {r : α}
    (h : e = .ok r) : e = .ok (e.toOption.getD default) := by
  subst h
  rfl

/-! ## Claim theorems -/

/-- Claim C10: the risk sub-score lies in `[15, 100]` before rounding: the
penalties sum to at most 85, so the lower clamp to 0 is never binding and
the risk score never reaches 0. -/
theorem risk_score_range (product : ProductRow) :
    riskScore product = riskScorePre product ∧
    15 ≤ riskScorePre product ∧ riskScorePre product ≤ 100 := by
  have h : 15 ≤ riskScorePre product ∧ riskScorePre product ≤ 100 := by
    unfold riskScorePre
    dsimp only
    split_ifs <;> norm_num
  refine ⟨?_, h.1, h.2⟩
  unfold riskScore
  rw [min_eq_right h.2, max_eq_right (by linarith [h.1])]

/-- Claim C2: a scenario is approved unless the customs value exceeds the
cap, or the scenario is the conservative one and the margin is below the
conservative minimum; the customs check wins and reports its single reason;
a non-conservative scenario is never rejected for low margin. -/
theorem scenario_approval (config : EvalConfig) (i : ScenarioInput) (r : ScenarioResult)
    (h : scenario_calc config i = some r) :
    (r.approved = false ↔
      scnCustomsValue i > config.max_customs_value_usd ∨
      (i.kind = "conservative" ∧ scnMargin i < config.min_margin_pct_conservative)) ∧
    (scnCustomsValue i > config.max_customs_value_usd →
      r.reason = some (customsCapReason config)) ∧
    (r.approved = true ↔ r.reason = none) ∧
    (i.kind ≠ "conservative" →
      (r.approved = false ↔ scnCustomsValue i > config.max_customs_value_usd)) := by
  obtain ⟨hr, -⟩ := scenario_calc_some h
  subst hr
  have ha : (scenarioResultFor config i).approved = (scnApproval config i).1 := rfl
  have hre : (scenarioResultFor config i).reason = (scnApproval config i).2 := rfl
  rw [ha, hre]
  unfold scnApproval
  split_ifs with h1 h2
  · exact ⟨by simp [h1], fun _ => rfl, by simp, fun _ => by simp [h1]⟩
  · exact ⟨by simp [h2], fun hc => absurd hc h1, by simp, fun hk => absurd h2.1 hk⟩
  · exact ⟨by simp [h1, h2], fun hc => absurd hc h1, by simp, fun _ => by simp [h1]⟩

/-- Witness for C2 at a concrete input where both rejection conditions
hold: the customs-cap reason is the one reported. -/
def bothFailInput : ScenarioInput :=
  { kind := "conservative", name := "Conservador", quantity := 1, exchange_rate := 1,
    target_sale_price_brl := 1, fob_unit_usd := 4000,
    freight_total_usd := 0, insurance_total_usd := 0 }

theorem scenario_approval_witness :
    (scenarioResultFor {} bothFailInput).approved = false ∧
    (scenarioResultFor {} bothFailInput).reason = some (customsCapReason {}) := by
  have hq : bothFailInput.quantity ≠ 0 := by decide
  have h := scenario_approval {} bothFailInput _ (scenario_calc_eq {} bothFailInput hq)
  have hc : scnCustomsValue bothFailInput > ({} : EvalConfig).max_customs_value_usd := by
    norm_num [scnCustomsValue, scnFobTotal, bothFailInput]
  exact ⟨h.1.mpr (Or.inl hc), h.2.1 hc⟩

/-- Counterexample to C4 as stated: with `quantity = 0` the scenario
computation does not complete — the division
`estimated_total_cost_brl / float(quantity)` raises `ZeroDivisionError`,
modelled by `none`. -/
def zeroQtyInput : ScenarioInput :=
  { kind := "base", name := "Base", quantity := 0, exchange_rate := 5,
    target_sale_price_brl := 100, fob_unit_usd := 10,
    freight_total_usd := 0, insurance_total_usd := 0 }

theorem scenario_zero_quantity_raises : scenario_calc {} zeroQtyInput = none := rfl

/-- Claim C4 (amended): for every scenario input with nonzero quantity the
computation completes without raising, and the degenerate cases are
clamped: margin forced to −100 when the target price is ≤ 0, ROI forced to
−100 when unit cost (resp. capital) is not positive. -/
theorem scenario_degenerate_clamped (config : EvalConfig) (i : ScenarioInput)
    (h : i.quantity ≠ 0) :
    scenario_calc config i = some (scenarioResultFor config i) ∧
    (i.target_sale_price_brl ≤ 0 →
      (scenarioResultFor config i).estimated_margin_pct = -100) ∧
    (scnUnitCost i ≤ 0 → (scenarioResultFor config i).roi_unit_pct = -100) ∧
    (scnCapitalTotal i ≤ 0 → (scenarioResultFor config i).roi_total_pct = -100) := by
  have hm : round2 (-100 : ℚ) = -100 := by norm_num [round2, round_eq]
  refine ⟨scenario_calc_eq config i h, fun ht => ?_, fun hu => ?_, fun hc => ?_⟩
  · show round2 (scnMargin i) = -100
    rw [scnMargin, if_pos ht, hm]
  · show round2 (scnRoiUnit config i) = -100
    rw [scnRoiUnit, if_neg (by linarith), hm]
  · show round2 (scnRoiTotal config i) = -100
    rw [scnRoiTotal, if_neg (by linarith), hm]

/-- Witness for C4 (amended): a zero target price with positive quantity
and zero costs completes and clamps margin and both ROI figures to −100. -/
def degenerateInput : ScenarioInput :=
  { kind := "base", name := "Base", quantity := 100, exchange_rate := 5,
    target_sale_price_brl := 0, fob_unit_usd := 0,
    freight_total_usd := 0, insurance_total_usd := 0 }

theorem scenario_degenerate_clamped_witness :
    (scenarioResultFor {} degenerateInput).estimated_margin_pct = -100 ∧
    (scenarioResultFor {} degenerateInput).roi_unit_pct = -100 ∧
    (scenarioResultFor {} degenerateInput).roi_total_pct = -100 := by
  have h := scenario_degenerate_clamped {} degenerateInput (by decide)
  refine ⟨h.2.1 (by norm_num [degenerateInput]), h.2.2.1 ?_, h.2.2.2 ?_⟩
  · norm_num [scnUnitCost, scnEstTotalBrl, scnEstTotalUsd, scnCustomsValue, scnFobTotal,
      degenerateInput]
  · norm_num [scnCapitalTotal, scnUnitCost, scnEstTotalBrl, scnEstTotalUsd, scnCustomsValue,
      scnFobTotal, degenerateInput]

/-- Claim C7: the end-to-end worked example: quantity 100, FX 5.0, unit FOB
10 USD, freight 200 USD, insurance 50 USD, target price 300 BRL, fees
0.16 + 0.05 and 3 BRL local cost yield the documented figures and an
approved scenario. -/
def exampleScenarioInput : ScenarioInput :=
  { kind := "base", name := "Base", quantity := 100, exchange_rate := 5,
    target_sale_price_brl := 300, fob_unit_usd := 10,
    freight_total_usd := 200, insurance_total_usd := 50 }

theorem scenario_worked_example :
    (scenario_calc {} exampleScenarioInput).map (fun r =>
      (r.fob_total_usd, r.customs_value_usd, r.estimated_total_cost_usd,
       r.estimated_total_cost_brl, r.unit_cost_brl, r.net_sale_price_brl,
       r.profit_unit_brl, r.estimated_margin_pct, r.approved)) =
    some (1000, 1250, 2500, 12500, 125, 237, 109, 5833/100, true) := by
  rw [scenario_calc_eq {} exampleScenarioInput (by decide), Option.map_some']
  show some ((round2 (scnFobTotal _), round2 (scnCustomsValue _), round2 (scnEstTotalUsd _),
    round2 (scnEstTotalBrl _), round2 (scnUnitCost _), round2 (scnNetSalePrice _ _),
    round2 (scnProfitUnit _ _), round2 (scnMargin _), (scnApproval _ _).1)) = _
  norm_num [scnFobTotal, scnCustomsValue, scnEstTotalUsd, scnEstTotalBrl, scnUnitCost,
    scnNetSalePrice, scnProfitUnit, scnMargin, scnApproval, exampleScenarioInput,
    round2, round_eq]

/-- Claim C8: for every scenario result and every persisted simulation, the
reported customs value equals FOB total plus freight plus insurance, up to
the 2-decimal rounding applied to each reported scenario field (persisted
simulations carry the exact identity). -/
theorem customs_value_consistency :
    (∀ (config : EvalConfig) (i : ScenarioInput) (r : ScenarioResult),
      scenario_calc config i = some r →
        r.fob_total_usd = round2 (scnFobTotal i) ∧
        r.freight_total_usd = round2 i.freight_total_usd ∧
        r.insurance_total_usd = round2 i.insurance_total_usd ∧
        r.customs_value_usd =
          round2 (scnFobTotal i + i.freight_total_usd + i.insurance_total_usd) ∧
        |r.customs_value_usd -
          (r.fob_total_usd + r.freight_total_usd + r.insurance_total_usd)| ≤ 1/50) ∧
    (∀ (db : DB) (pid : ℤ) (payload : SimulationInput) (s : NewSimulation),
      simulate_import_for_product db pid payload = .ok s →
        s.customs_value_usd =
          s.fob_total_usd + s.freight_total_usd + s.insurance_total_usd) := by
  constructor
  · intro config i r h
    obtain ⟨hr, -⟩ := scenario_calc_some h
    subst hr
    refine ⟨rfl, rfl, rfl, rfl, ?_⟩
    show |round2 (scnFobTotal i + i.freight_total_usd + i.insurance_total_usd) -
      (round2 (scnFobTotal i) + round2 i.freight_total_usd + round2 i.insurance_total_usd)| ≤ 1/50
    have h1 := abs_round2_sub (scnFobTotal i + i.freight_total_usd + i.insurance_total_usd)
    have h2 := abs_round2_sub (scnFobTotal i)
    have h3 := abs_round2_sub i.freight_total_usd
    have h4 := abs_round2_sub i.insurance_total_usd
    rw [abs_le] at h1 h2 h3 h4 ⊢
    constructor <;> linarith [h1.1, h1.2, h2.1, h2.2, h3.1, h3.2, h4.1, h4.2]
  · intro db pid payload s h
    unfold simulate_import_for_product at h
    split at h
    · exact absurd h (by simp)
    split at h
    · exact absurd h (by simp)
    split at h
    · exact absurd h (by simp)
    split_ifs at h
    obtain rfl := Except.ok.inj h
    rfl

/-- Witness for C8: the scenario part at the worked-example input, and the
persisted-simulation part on a one-product snapshot. -/
def c8Db : DB :=
  { products := [{ id := 1, name := "p", fob_price_usd := some 10,
                   freight_usd := some 2, insurance_usd := none }] }

def c8Payload : SimulationInput :=
  { quantity := 2, exchange_rate := some 5, target_sale_price_brl := 100 }

theorem customs_value_consistency_witness :
    ((scenarioResultFor {} bothFailInput).customs_value_usd =
      round2 (scnFobTotal bothFailInput + bothFailInput.freight_total_usd +
        bothFailInput.insurance_total_usd) ∧
     |(scenarioResultFor {} bothFailInput).customs_value_usd -
       ((scenarioResultFor {} bothFailInput).fob_total_usd +
        (scenarioResultFor {} bothFailInput).freight_total_usd +
        (scenarioResultFor {} bothFailInput).insurance_total_usd)| ≤ 1/50) ∧
    ((simulate_import_for_product c8Db 1 c8Payload).toOption.getD default).customs_value_usd =
      ((simulate_import_for_product c8Db 1 c8Payload).toOption.getD default).fob_total_usd +
      ((simulate_import_for_product c8Db 1 c8Payload).toOption.getD default).freight_total_usd +
      ((simulate_import_for_product c8Db 1 c8Payload).toOption.getD default).insurance_total_usd := by
  have h1 := customs_value_consistency.1 {} bothFailInput _
    (scenario_calc_eq {} bothFailInput (by decide))
  have hok : simulate_import_for_product c8Db 1 c8Payload =
      .ok ((simulate_import_for_product c8Db 1 c8Payload).toOption.getD default) := rfl
  exact ⟨⟨h1.2.2.2.1, h1.2.2.2.2⟩, customs_value_consistency.2 c8Db 1 c8Payload _ hok⟩

/-! ## Score range lemmas -/

lemma normalize_nonneg (v : Option ℚ) (lo hi : ℚ) : 0 ≤ normalize v lo hi := by
  unfold normalize
  rcases v with - | x
  · norm_num
  · dsimp only
    split_ifs with h1 h2
    · norm_num
    · norm_num
    · push_neg at h1 h2
      apply div_nonneg <;> linarith

lemma normalize_le_one (v : Option ℚ) (lo hi : ℚ) : normalize v lo hi ≤ 1 := by
  unfold normalize
  rcases v with - | x
  · norm_num
  · dsimp only
    split_ifs with h1 h2
    · norm_num
    · norm_num
    · push_neg at h1 h2
      rw [div_le_one (by linarith)]
      linarith

lemma demandScore_range (market : Option MarketRow) :
    0 ≤ demandScore market ∧ demandScore market ≤ 100 := by
  unfold demandScore
  dsimp only
  constructor <;>
    nlinarith [normalize_nonneg (some (((market.bind (fun m => m.sales_per_day)).getD 0 : ℤ) : ℚ)) 0 150,
      normalize_le_one (some (((market.bind (fun m => m.sales_per_day)).getD 0 : ℤ) : ℚ)) 0 150,
      normalize_nonneg (some (((market.bind (fun m => m.sales_per_month)).getD 0 : ℤ) : ℚ)) 0 4000,
      normalize_le_one (some (((market.bind (fun m => m.sales_per_month)).getD 0 : ℤ) : ℚ)) 0 4000,
      normalize_nonneg (some (((market.bind (fun m => m.visits)).getD 0 : ℤ) : ℚ)) 0 10000,
      normalize_le_one (some (((market.bind (fun m => m.visits)).getD 0 : ℤ) : ℚ)) 0 10000]

lemma competitionScore_range (market : Option MarketRow) :
    0 ≤ competitionScore market ∧ competitionScore market ≤ 100 := by
  unfold competitionScore
  dsimp only
  constructor
  · exact le_max_left 0 _
  · refine max_le (by norm_num) ?_
    nlinarith [normalize_nonneg (some ((market.bind (fun m => m.full_ratio)).getD 0)) 0 80,
      normalize_nonneg (some (((market.bind (fun m => m.competitor_count)).getD 0 : ℤ) : ℚ)) 0 30,
      normalize_nonneg (some ((pyOrZ (market.bind (fun m => m.ranking_position)) 50000 : ℤ) : ℚ)) 1 50000]

lemma marginScore_range (simulation : Option SimRow) :
    0 ≤ marginScore simulation ∧ marginScore simulation ≤ 100 := by
  unfold marginScore
  constructor <;>
    nlinarith [normalize_nonneg (some ((simulation.map (fun s => s.estimated_margin_pct)).getD 0)) 10 60,
      normalize_le_one (some ((simulation.map (fun s => s.estimated_margin_pct)).getD 0)) 10 60]

lemma riskScore_range (product : ProductRow) :
    0 ≤ riskScore product ∧ riskScore product ≤ 100 := by
  unfold riskScore
  constructor
  · exact le_max_left 0 _
  · exact max_le (by norm_num) (min_le_left 100 _)

lemma totalScoreRaw_range (market : Option MarketRow) (simulation : Option SimRow)
    (product : ProductRow) :
    0 ≤ totalScoreRaw market simulation product ∧
    totalScoreRaw market simulation product ≤ 100 := by
  have h1 := demandScore_range market
  have h2 := competitionScore_range market
  have h3 := marginScore_range simulation
  have h4 := riskScore_range product
  unfold totalScoreRaw
  constructor <;> nlinarith [h1.1, h1.2, h2.1, h2.2, h3.1, h3.2, h4.1, h4.2]

lemma compute_score_fields {db : DB} {pid : ℤ} {p : ProductRow} {r : ScoreResult}
    (hp : productFor db pid = some p)
    (hr : compute_product_score db pid = .ok r) :
    r.total_score = round (scoreTotalRaw db pid p) ∧
    r.classification = scoreToLabel (scoreTotalRaw db pid p) := by
  unfold compute_product_score at hr
  rw [hp] at hr
  obtain rfl := Except.ok.inj hr
  exact ⟨rfl, rfl⟩

lemma compute_score_total_range {db : DB} {pid : ℤ} {r : ScoreResult}
    (hr : compute_product_score db pid = .ok r) :
    0 ≤ r.total_score ∧ r.total_score ≤ 100 := by
  unfold compute_product_score at hr
  rcases hp : productFor db pid with - | p
  · rw [hp] at hr; exact absurd hr (by simp)
  rw [hp] at hr
  obtain rfl := Except.ok.inj hr
  have h := totalScoreRaw_range (marketFor db pid) (latestSimulation db pid) p
  exact ⟨int_le_round (by exact_mod_cast h.1), round_le_int (by exact_mod_cast h.2)⟩

lemma round_eq_bounds {raw : ℚ} {n : ℤ} (h : round raw = n) :
    (n : ℚ) - 1/2 ≤ raw ∧ raw < (n : ℚ) + 1/2 := by
  rw [round_eq] at h
  constructor
  · have := Int.floor_le (raw + 1/2)
    rw [h] at this
    linarith
  · have := Int.lt_floor_add_one (raw + 1/2)
    rw [h] at this
    have h2 : ((n : ℚ) + 1) = ((n + 1 : ℤ) : ℚ) := by push_cast; ring
    linarith

lemma scoreToLabel_bom {raw : ℚ} (h1 : 60 ≤ raw) (h2 : raw < 80) :
    scoreToLabel raw = "bom" := by
  unfold scoreToLabel
  rw [if_neg (by linarith), if_pos (by linarith)]

lemma scoreToLabel_arriscado {raw : ℚ} (h1 : 40 ≤ raw) (h2 : raw < 60) :
    scoreToLabel raw = "arriscado" := by
  unfold scoreToLabel
  rw [if_neg (by linarith), if_neg (by linarith), if_pos (by linarith)]

lemma scoreToLabel_descartar {raw : ℚ} (h2 : raw < 40) :
    scoreToLabel raw = "descartar" := by
  unfold scoreToLabel
  rw [if_neg (by linarith), if_neg (by linarith), if_neg (by linarith)]

/-- Product, market and simulation rows for the boundary analysis of the
score classification. -/
def c3Product : ProductRow := { id := 1, name := "x" }

def c3Market : MarketRow :=
  { product_id := 1, sales_per_day := some 150, sales_per_month := some 4000,
    visits := some 10000, ranking_position := some 1, full_ratio := some 0,
    competitor_count := some 0 }

def c3Sim : SimRow :=
  { product_id := 1, quantity := 100, exchange_rate := 5,
    target_sale_price_brl := 100, estimated_margin_pct := 98/5 }

def c3Db : DB :=
  { products := [c3Product], markets := [c3Market], simulations := [c3Sim] }

/-- Counterexample to C3 as stated: with perfect demand/competition/risk and
a simulated margin of 19.6%, the raw total is 79.8, so the reported
(rounded) total is 80 while the classification — computed from the
unrounded total — is the viable label, not the top tier. -/
theorem score_label_boundary_counterexample :
    (compute_product_score c3Db 1).toOption.map (fun r => (r.total_score, r.classification)) =
    some (80, "bom") := by
  have hm : marketFor c3Db 1 = some c3Market := rfl
  have hs : latestSimulation c3Db 1 = some c3Sim := rfl
  have hraw : totalScoreRaw (marketFor c3Db 1) (latestSimulation c3Db 1) c3Product = 399/5 := by
    rw [totalScoreRaw, hm, hs]
    norm_num [demandScore, competitionScore, marginScore, riskScore, riskScorePre,
      normalize, pyOrZ, c3Market, c3Sim, c3Product]
  have hp : productFor c3Db 1 = some c3Product := rfl
  unfold compute_product_score
  rw [hp]
  dsimp only
  rw [hraw]
  norm_num [round_eq, scoreToLabel]
  exact ⟨_, rfl, rfl, rfl⟩

/-- Claim C3 (amended): the reported total score is always in `[0,100]` and
equals the rounding of the raw weighted total, while the classification
label applies the 80/60/40 boundaries to the raw (unrounded) total; hence
reported totals of 79, 59 and 39 are labelled viable, risky and discard
respectively, but a reported boundary total (80, 60 or 40) may carry the
next-lower label when rounding up crossed the boundary. -/
theorem score_total_range_and_label (db : DB) (pid : ℤ) (p : ProductRow) (r : ScoreResult)
    (hp : productFor db pid = some p)
    (hr : compute_product_score db pid = .ok r) :
    (0 ≤ r.total_score ∧ r.total_score ≤ 100) ∧
    r.total_score = round (scoreTotalRaw db pid p) ∧
    r.classification = scoreToLabel (scoreTotalRaw db pid p) ∧
    (r.total_score = 79 → r.classification = "bom") ∧
    (r.total_score = 59 → r.classification = "arriscado") ∧
    (r.total_score = 39 → r.classification = "descartar") := by
  have hf := compute_score_fields hp hr
  refine ⟨compute_score_total_range hr, hf.1, hf.2, ?_, ?_, ?_⟩ <;>
    intro ht <;> rw [hf.1] at ht <;> have hb := round_eq_bounds ht <;>
    push_cast at hb <;> rw [hf.2]
  · exact scoreToLabel_bom (by linarith [hb.1]) (by linarith [hb.2])
  · exact scoreToLabel_arriscado (by linarith [hb.1]) (by linarith [hb.2])
  · exact scoreToLabel_descartar (by linarith [hb.2])

/-- Witness for C3 (amended) at a concrete snapshot whose raw total is
exactly 79: the reported total is 79 and the label is the viable one. -/
def c3wSim : SimRow :=
  { product_id := 1, quantity := 100, exchange_rate := 5,
    target_sale_price_brl := 100, estimated_margin_pct := 18 }

def c3wDb : DB :=
  { products := [c3Product], markets := [c3Market], simulations := [c3wSim] }

theorem score_total_range_and_label_witness :
    ((compute_product_score c3wDb 1).toOption.getD default).total_score = 79 ∧
    ((compute_product_score c3wDb 1).toOption.getD default).classification = "bom" := by
  have hr : compute_product_score c3wDb 1 =
      .ok ((compute_product_score c3wDb 1).toOption.getD default) := rfl
  have hp : productFor c3wDb 1 = some c3Product := rfl
  have h := score_total_range_and_label c3wDb 1 c3Product _ hp hr
  have hm : marketFor c3wDb 1 = some c3Market := rfl
  have hs : latestSimulation c3wDb 1 = some c3wSim := rfl
  have hraw : scoreTotalRaw c3wDb 1 c3Product = 79 := by
    rw [scoreTotalRaw, totalScoreRaw, hm, hs]
    norm_num [demandScore, competitionScore, marginScore, riskScore, riskScorePre,
      normalize, pyOrZ, c3Market, c3wSim, c3Product]
  have htot : ((compute_product_score c3wDb 1).toOption.getD default).total_score = 79 := by
    rw [h.2.1, hraw]
    norm_num [round_eq]
  exact ⟨htot, h.2.2.2.1 htot⟩

/-! ## Evaluation pipeline lemmas -/

lemma evalBaseQty_pos (ls : Option SimRow) : 0 < evalBaseQty ls := by
  unfold evalBaseQty
  rcases ls with - | s
  · norm_num
  · dsimp only
    split_ifs with h
    · exact h
    · norm_num

lemma evalConsInput_qty (p : ProductRow) (m : Option MarketRow) (ls : Option SimRow) :
    50 ≤ (evalConsInput p m ls).quantity :=
  le_max_left 50 _

lemma evalOptInput_qty_pos (p : ProductRow) (m : Option MarketRow) (ls : Option SimRow) :
    0 < (evalOptInput p m ls).quantity := by
  show 0 < pytrunc ((evalBaseQty ls : ℚ) * (13/10))
  have hb : 1 ≤ evalBaseQty ls := evalBaseQty_pos ls
  have hq : (13/10 : ℚ) ≤ (evalBaseQty ls : ℚ) * (13/10) := by
    have : (1 : ℚ) ≤ (evalBaseQty ls : ℚ) := by exact_mod_cast hb
    nlinarith
  unfold pytrunc
  rw [if_pos (by linarith)]
  have : (1 : ℤ) ≤ ⌊(evalBaseQty ls : ℚ) * (13/10)⌋ := Int.le_floor.mpr (by push_cast; linarith)
  omega

lemma evalBaseInput_qty_pos (p : ProductRow) (m : Option MarketRow) (ls : Option SimRow) :
    0 < (evalBaseInput p m ls).quantity :=
  evalBaseQty_pos ls

/-- The list of the three scenarios the evaluation computes. -/
def evalScenarios (db : DB) (pid : ℤ) (p : ProductRow) : List ScenarioResult :=
  [scenarioResultFor {} (evalBaseInput p (marketFor db pid) (latestSimulation db pid)),
   scenarioResultFor {} (evalConsInput p (marketFor db pid) (latestSimulation db pid)),
   scenarioResultFor {} (evalOptInput p (marketFor db pid) (latestSimulation db pid))]

/-- The response `compute_product_evaluation` produces on the success path
(proved equal to the computation in `compute_eval_eq`). -/
def evalResponse (db : DB) (pid : ℤ) (p : ProductRow) : ProductEvaluationResponse :=
  let market := marketFor db pid
  let last_sim := latestSimulation db pid
  let conservative := scenarioResultFor {} (evalConsInput p market last_sim)
  let blockers := evalBlockers db p
  let dr := evalDecision blockers market.isSome (evalBaseTargetPrice market last_sim)
    (evalFobUnit p) conservative
  { header := {
      product_id := p.id
      product_name := p.name
      category := p.category
      has_market_data := market.isSome
      has_ncm := p.ncm_id.isSome
      has_supplier := p.supplier_id.isSome
      has_dimensions := evalHasDimensions p
      latest_decision := latestDecision db pid
      created_at := p.created_at }
    completeness := evalCompleteness p market
    decision := dr.1
    decision_reason := dr.2
    score := (compute_product_score_v2 db pid).toOption
    scenarios := evalScenarios db pid p
    blockers := blockers }

lemma evalScenarios_find (db : DB) (pid : ℤ) (p : ProductRow) :
    (evalScenarios db pid p).find? (fun s => s.kind = "conservative") =
    some (scenarioResultFor {} (evalConsInput p (marketFor db pid) (latestSimulation db pid))) := by
  unfold evalScenarios
  rw [List.find?_cons_of_neg _ (by simp [scenarioResultFor, evalBaseInput]),
    List.find?_cons_of_pos _ (by simp [scenarioResultFor, evalConsInput])]

lemma compute_eval_eq {db : DB} {pid : ℤ} {p : ProductRow}
    (hp : productFor db pid = some p) :
    compute_product_evaluation db pid = .ok (evalResponse db pid p) := by
  unfold compute_product_evaluation
  rw [hp]
  dsimp only
  rw [scenario_calc_eq {} _ (by have := evalBaseInput_qty_pos p (marketFor db pid) (latestSimulation db pid); omega),
    scenario_calc_eq {} _ (by have := evalConsInput_qty p (marketFor db pid) (latestSimulation db pid); omega),
    scenario_calc_eq {} _ (by have := evalOptInput_qty_pos p (marketFor db pid) (latestSimulation db pid); omega)]
  dsimp only
  rw [show [scenarioResultFor {} (evalBaseInput p (marketFor db pid) (latestSimulation db pid)),
        scenarioResultFor {} (evalConsInput p (marketFor db pid) (latestSimulation db pid)),
        scenarioResultFor {} (evalOptInput p (marketFor db pid) (latestSimulation db pid))].find?
      (fun s => s.kind = "conservative") = _ from evalScenarios_find db pid p]
  rfl

/-- Claim C9: within a full evaluation every generated scenario quantity is
strictly positive (the base quantity falls back to 200 when the latest
simulation quantity is missing or non-positive, the conservative quantity
is floored at 50, the optimistic one truncates a positive product), so the
per-unit division never divides by zero and the evaluation completes. -/
theorem evaluation_scenario_quantities (db : DB) (pid : ℤ) (p : ProductRow)
    (hp : productFor db pid = some p) :
    0 < (evalBaseInput p (marketFor db pid) (latestSimulation db pid)).quantity ∧
    50 ≤ (evalConsInput p (marketFor db pid) (latestSimulation db pid)).quantity ∧
    0 < (evalOptInput p (marketFor db pid) (latestSimulation db pid)).quantity ∧
    (∀ s, latestSimulation db pid = some s → s.quantity ≤ 0 →
      evalBaseQty (latestSimulation db pid) = 200) ∧
    (latestSimulation db pid = none → evalBaseQty (latestSimulation db pid) = 200) ∧
    compute_product_evaluation db pid = .ok (evalResponse db pid p) := by
  refine ⟨evalBaseInput_qty_pos p _ _, evalConsInput_qty p _ _, evalOptInput_qty_pos p _ _,
    ?_, ?_, compute_eval_eq hp⟩
  · intro s hs hq
    rw [hs]
    show (if 0 < s.quantity then s.quantity else 200) = 200
    rw [if_neg (by omega)]
  · intro hs
    rw [hs]
    rfl

/-- Witness for C9: a snapshot whose latest simulation has a negative
quantity still evaluates, with the base quantity defaulted to 200. -/
def c9Product : ProductRow := { id := 1, name := "y", fob_price_usd := some 10 }

def c9Sim : SimRow :=
  { product_id := 1, quantity := -5, exchange_rate := 5,
    target_sale_price_brl := 100, estimated_margin_pct := 20 }

def c9Db : DB := { products := [c9Product], simulations := [c9Sim] }

theorem evaluation_scenario_quantities_witness :
    0 < (evalBaseInput c9Product (marketFor c9Db 1) (latestSimulation c9Db 1)).quantity ∧
    evalBaseQty (latestSimulation c9Db 1) = 200 ∧
    compute_product_evaluation c9Db 1 = .ok (evalResponse c9Db 1 c9Product) := by
  have h := evaluation_scenario_quantities c9Db 1 c9Product rfl
  exact ⟨h.1, h.2.2.2.1 c9Sim rfl (by norm_num [c9Sim]), h.2.2.2.2.2⟩

/-- Claim C1: the final decision ladder — any blocker forces reject (even
with an approved conservative scenario); otherwise missing market data, a
non-positive target price or a non-positive FOB forces needs-data (even
with a rejected conservative scenario); otherwise the conservative
scenario's approval decides, with its reason (or the generic fallback) on
rejection. -/
theorem evaluation_decision_precedence (db : DB) (pid : ℤ) (p : ProductRow)
    (resp : ProductEvaluationResponse) (c : ScenarioResult)
    (hp : productFor db pid = some p)
    (hr : compute_product_evaluation db pid = .ok resp)
    (hc : evalConsScenario db pid p = some c) :
    resp.blockers = evalBlockers db p ∧
    (resp.blockers ≠ [] →
      resp.decision = "reject" ∧
      resp.decision_reason = "Há impeditivos objetivos (risco/compliance) antes de seguir.") ∧
    (resp.blockers = [] →
      ((marketFor db pid).isSome = false ∨
        evalBaseTargetPrice (marketFor db pid) (latestSimulation db pid) ≤ 0 ∨
        evalFobUnit p ≤ 0) →
      resp.decision = "needs_data" ∧
      resp.decision_reason = "Faltam dados críticos para decidir com segurança.") ∧
    (resp.blockers = [] →
      (marketFor db pid).isSome = true →
      0 < evalBaseTargetPrice (marketFor db pid) (latestSimulation db pid) →
      0 < evalFobUnit p →
      (c.approved = true →
        resp.decision = "approve" ∧
        resp.decision_reason = "Aprova no cenário conservador e não há impeditivos.") ∧
      (c.approved = false →
        resp.decision = "reject" ∧
        resp.decision_reason = pyOrStr c.reason "Reprovado no cenário conservador.")) := by
  rw [compute_eval_eq hp] at hr
  obtain rfl := (Except.ok.inj hr).symm
  obtain ⟨hc', -⟩ := scenario_calc_some hc
  subst hc'
  have hbl : (evalResponse db pid p).blockers = evalBlockers db p := rfl
  have hd : (evalResponse db pid p).decision =
      (evalDecision (evalBlockers db p) (marketFor db pid).isSome
        (evalBaseTargetPrice (marketFor db pid) (latestSimulation db pid)) (evalFobUnit p)
        (scenarioResultFor {} (evalConsInput p (marketFor db pid) (latestSimulation db pid)))).1 := rfl
  have hdr : (evalResponse db pid p).decision_reason =
      (evalDecision (evalBlockers db p) (marketFor db pid).isSome
        (evalBaseTargetPrice (marketFor db pid) (latestSimulation db pid)) (evalFobUnit p)
        (scenarioResultFor {} (evalConsInput p (marketFor db pid) (latestSimulation db pid)))).2 := rfl
  refine ⟨hbl, ?_, ?_, ?_⟩
  · intro hb
    rw [hbl] at hb
    rw [hd, hdr]
    unfold evalDecision
    rw [if_pos hb]
    exact ⟨rfl, rfl⟩
  · intro hb hmiss
    rw [hbl] at hb
    rw [hd, hdr]
    unfold evalDecision
    rw [if_neg (by simp [hb]), if_pos hmiss]
    exact ⟨rfl, rfl⟩
  · intro hb hm hbtp hfob
    rw [hbl] at hb
    rw [hd, hdr]
    unfold evalDecision
    rw [if_neg (by simp [hb]),
      if_neg (by push_neg; exact ⟨by simp [hm], by linarith, by linarith⟩)]
    constructor
    · intro ha
      rw [if_pos ha]
      exact ⟨rfl, rfl⟩
    · intro ha
      rw [if_neg (by simp [ha])]
      exact ⟨rfl, rfl⟩

/-- Witness for C1: a famous-brand product without authorization, with
market data, FOB and target price present, is rejected by the blocker
branch. -/
def c1Product : ProductRow :=
  { id := 1, name := "z", fob_price_usd := some 10, freight_usd := some 1,
    is_famous_brand := true, has_brand_authorization := false }

def c1Market : MarketRow := { product_id := 1, price_average_brl := some 100 }

def c1Db : DB := { products := [c1Product], markets := [c1Market] }

theorem evaluation_decision_precedence_witness :
    (evalResponse c1Db 1 c1Product).decision = "reject" := by
  have hc : evalConsScenario c1Db 1 c1Product =
      some (scenarioResultFor {} (evalConsInput c1Product (marketFor c1Db 1) (latestSimulation c1Db 1))) :=
    scenario_calc_eq {} _ (by have := evalConsInput_qty c1Product (marketFor c1Db 1) (latestSimulation c1Db 1); omega)
  have h := evaluation_decision_precedence c1Db 1 c1Product (evalResponse c1Db 1 c1Product) _
    rfl (compute_eval_eq rfl) hc
  exact (h.2.1 (by rw [h.1]; decide)).1

/-! ## Triage lemmas -/

lemma triageEntry_fob_rank (db : DB) (isc : Bool) (p : ProductRow) :
    ((triageEntry db isc p).has_fob = false → (triageEntry db isc p).priority_rank = 30) ∧
    ((triageEntry db isc p).has_fob = true → (triageEntry db isc p).priority_rank ≤ 20) := by
  have hf : (triageEntry db isc p).has_fob = (triageFlagsOf db p).has_fob := rfl
  have hr : (triageEntry db isc p).priority_rank =
      (status_and_action (triageFlagsOf db p)).2.2 := rfl
  rw [hf, hr]
  rcases triageFlagsOf db p with ⟨a, b, c, d⟩
  cases a <;> cases b <;> cases c <;> cases d <;> norm_num [status_and_action]

lemma triageEntry_score_range (db : DB) (isc : Bool) (p : ProductRow) :
    ∀ s, (triageEntry db isc p).score = some s → 0 ≤ s.total_score ∧ s.total_score ≤ 100 := by
  intro s hs
  have he : (triageEntry db isc p).score =
      (if isc then
        match compute_product_score_v2 db p.id with
        | .ok r => some r
        | .error _ => none
      else none) := rfl
  rw [he] at hs
  cases isc
  · exact absurd hs (by simp)
  · rw [if_pos rfl] at hs
    rcases hq : compute_product_score_v2 db p.id with e | r
    · rw [hq] at hs
      exact absurd hs (by simp)
    · rw [hq] at hs
      obtain rfl := Option.some.inj hs
      exact compute_score_total_range hq

lemma triageScoreKey_none {e : ProductTriageOut} (h : e.score = none) :
    triageScoreKey e = -1 := by
  unfold triageScoreKey
  rw [h]

lemma triageScoreKey_some {e : ProductTriageOut} {s : ScoreResult} (h : e.score = some s) :
    triageScoreKey e = s.total_score := by
  unfold triageScoreKey
  rw [h]

/-- Claim C5: the batch triage isolates per-product scoring failures: one
entry per product is always produced, a scoring exception degrades only
that entry's score to absent, and no product aborts the batch. -/
theorem triage_batch_isolation (db : DB) (limit : ℕ) :
    (build_products_triage db limit true).length = (triageProducts db limit).length ∧
    ∀ p ∈ triageProducts db limit,
      triageEntry db true p ∈ build_products_triage db limit true ∧
      (triageEntry db true p).product_id = p.id ∧
      (triageEntry db true p).score =
        (match compute_product_score_v2 db p.id with
         | .ok r => some r
         | .error _ => none) := by
  constructor
  · unfold build_products_triage
    rw [(List.perm_insertionSort triageLe _).length_eq, List.length_map]
  · intro p hp
    refine ⟨?_, rfl, rfl⟩
    unfold build_products_triage
    rw [(List.perm_insertionSort triageLe _).mem_iff]
    exact List.mem_map_of_mem _ hp

/-- Witness for C5: on a two-product snapshot the batch has two entries and
the first product's entry is present. -/
def c5ProductA : ProductRow := { id := 1, name := "a", created_at := 1 }

def c5ProductB : ProductRow :=
  { id := 2, name := "b", created_at := 0, fob_price_usd := some 5 }

def c5Db : DB := { products := [c5ProductA, c5ProductB] }

theorem triage_batch_isolation_witness :
    (build_products_triage c5Db 10 true).length = 2 ∧
    triageEntry c5Db true c5ProductA ∈ build_products_triage c5Db 10 true := by
  have h := triage_batch_isolation c5Db 10
  have hmem : c5ProductA ∈ triageProducts c5Db 10 := by decide
  refine ⟨?_, (h.2 c5ProductA hmem).1⟩
  rw [h.1]
  decide

/-- Claim C6: the triage output is sorted by the lexicographic key
(ascending priority rank, then descending total score with an absent score
keyed as −1 below every present score, then descending creation time), a
total order; entries without FOB carry rank 30 while entries with FOB
carry rank at most 20, so a product missing FOB never sorts before one
that has it, and at equal rank an absent score never sorts before a
present one. -/
theorem triage_ordering_total (db : DB) (limit : ℕ) (isc : Bool) :
    List.Sorted triageLe (build_products_triage db limit isc) ∧
    (∀ a b : ProductTriageOut, triageLe a b ∨ triageLe b a) ∧
    (∀ e ∈ build_products_triage db limit isc,
      (e.has_fob = false → e.priority_rank = 30) ∧
      (e.has_fob = true → e.priority_rank ≤ 20) ∧
      (∀ s, e.score = some s → 0 ≤ s.total_score)) ∧
    (∀ i j (hi : i < (build_products_triage db limit isc).length)
        (hj : j < (build_products_triage db limit isc).length), i ≤ j →
      ((build_products_triage db limit isc).get ⟨i, hi⟩).has_fob = false →
      ((build_products_triage db limit isc).get ⟨j, hj⟩).has_fob = false) ∧
    (∀ i j (hi : i < (build_products_triage db limit isc).length)
        (hj : j < (build_products_triage db limit isc).length), i ≤ j →
      ((build_products_triage db limit isc).get ⟨i, hi⟩).priority_rank =
        ((build_products_triage db limit isc).get ⟨j, hj⟩).priority_rank →
      ((build_products_triage db limit isc).get ⟨i, hi⟩).score = none →
      ((build_products_triage db limit isc).get ⟨j, hj⟩).score = none) := by
  have hsorted : List.Sorted triageLe (build_products_triage db limit isc) :=
    List.sorted_insertionSort triageLe _
  have hinv : ∀ e ∈ build_products_triage db limit isc,
      (e.has_fob = false → e.priority_rank = 30) ∧
      (e.has_fob = true → e.priority_rank ≤ 20) ∧
      (∀ s, e.score = some s → 0 ≤ s.total_score) := by
    intro e he
    rw [build_products_triage, (List.perm_insertionSort triageLe _).mem_iff] at he
    obtain ⟨p, -, rfl⟩ := List.mem_map.mp he
    exact ⟨(triageEntry_fob_rank db isc p).1, (triageEntry_fob_rank db isc p).2,
      fun s hs => (triageEntry_score_range db isc p s hs).1⟩
  refine ⟨hsorted, ?_, hinv, ?_, ?_⟩
  · intro a b
    unfold triageLe lex3
    omega
  · intro i j hi hj hij hfi
    rcases Nat.eq_or_lt_of_le hij with heq | hlt
    · subst heq
      exact hfi
    · have hle := hsorted.rel_get_of_lt (show (⟨i, hi⟩ : Fin _) < ⟨j, hj⟩ from hlt)
      have h1 := (hinv _ (List.get_mem _ _ hi)).1 hfi
      by_contra hfj
      have hfj' : ((build_products_triage db limit isc).get ⟨j, hj⟩).has_fob = true := by
        rcases hb : ((build_products_triage db limit isc).get ⟨j, hj⟩).has_fob
        · exact absurd hb hfj
        · rfl
      have h2 := (hinv _ (List.get_mem _ _ hj)).2.1 hfj'
      unfold triageLe lex3 triageSortKey at hle
      dsimp only at hle
      omega
  · intro i j hi hj hij hrank hsi
    rcases Nat.eq_or_lt_of_le hij with heq | hlt
    · subst heq
      exact hsi
    · have hle := hsorted.rel_get_of_lt (show (⟨i, hi⟩ : Fin _) < ⟨j, hj⟩ from hlt)
      rcases hsj : ((build_products_triage db limit isc).get ⟨j, hj⟩).score with - | s
      · rfl
      · have hkj := triageScoreKey_some hsj
        have hki := triageScoreKey_none hsi
        have hpos := (hinv _ (List.get_mem _ _ hj)).2.2 s hsj
        unfold triageLe lex3 triageSortKey at hle
        dsimp only at hle
        rw [hki, hkj] at hle
        omega

/-- Witness for C6: two products, neither with FOB; the first output entry
lacks FOB, so the theorem forces every later entry to lack it too. -/
def c6ProductA : ProductRow := { id := 1, name := "a", created_at := 5 }

def c6ProductB : ProductRow := { id := 2, name := "b", created_at := 7 }

def c6Db : DB := { products := [c6ProductA, c6ProductB] }

theorem triage_ordering_total_witness :
    ((build_products_triage c6Db 10 false).get ⟨1, by decide⟩).has_fob = false ∧
    ((build_products_triage c6Db 10 false).get ⟨1, by decide⟩).score = none := by
  have h := triage_ordering_total c6Db 10 false
  constructor
  · exact h.2.2.2.1 0 1 (by decide) (by decide) (by decide) (by decide)
  · exact h.2.2.2.2 0 1 (by decide) (by decide) (by decide) (by decide) (by decide)

end Manna
